import Mathlib

/-!
Verification development for the Network-Performance-Testing repository.

The repository holds two Python scripts:
  * `src/performance_test.py`        (the primary script, header version v2.2/v2.3)
  * `src/performance_test.2.2.bak.py` (the v2.2 backup variant)

Both invoke `ping` and `iperf3`, parse their free-text output with regular
expressions, and append a single syslog-style summary line to a log file.
This file gives a shallow embedding of the text-extraction, reachability,
and summary-assembly logic of both scripts.  Text is modelled as `List Char`;
each `re.search` call of the source is modelled by a bespoke left-to-right
scanner whose per-position matcher mirrors the concrete pattern.  For every
pattern appearing in the source, each greedy repetition is followed by a
character that its class cannot match, so maximal munch at each start
position is observably equivalent to Python's backtracking search; where an
optional group occurs, the fallback branch is provably dead and this is
noted at the definition.
-/

/-- ASCII decimal digit, the model of the regex class backslash-d
(the captured texts are ASCII). -/
def isDigitCh (c : Char) : Bool :=
  48 ≤ c.toNat && c.toNat ≤ 57

/-- Model of the regex class matching a digit or a literal dot. -/
def isDigitDot (c : Char) : Bool :=
  isDigitCh c || c == '.'

/-- Model of the regex word class: ASCII letter, digit or underscore. -/
def isWordCh (c : Char) : Bool :=
  isDigitCh c || (97 ≤ c.toNat && c.toNat ≤ 122) || (65 ≤ c.toNat && c.toNat ≤ 90) || c == '_'

/-- Python whitespace as stripped by `str.strip` and matched by backslash-s. -/
def isSpaceCh (c : Char) : Bool :=
  c == ' ' || c == '\t' || c == '\n' || c == '\r' || c == '\x0b' || c == '\x0c'

/-- Literal-piece test: `litAt pat t` holds when `pat` is a prefix of `t`
(a literal regex piece matching at the current position). -/
def litAt (pat t : List Char) : Bool :=
  match pat, t with
  | [], _ => true
  | _ :: _, [] => false
  | p :: ps, c :: cs => p == c && litAt ps cs

/-- Substring containment, the model of the Python expression `pat in t`. -/
def containsSub (pat : List Char) : List Char → Bool
  | [] => litAt pat []
  | c :: cs => litAt pat (c :: cs) || containsSub pat cs

/-- Leftmost-match search: the model of `re.search`.  `m` is the matcher of
one pattern at one position; the scanner tries every start position from the
left and returns the first success, exactly as `re.search` does. -/
def searchWith (m : List Char → Option (List Char)) : List Char → Option (List Char)
  | [] => m []
  | c :: cs =>
    match m (c :: cs) with
    | some g => some g
    | none => searchWith m cs

/-- Model of Python `str.strip()`: drop whitespace from both ends. -/
def stripChars (l : List Char) : List Char :=
  ((l.dropWhile isSpaceCh).reverse.dropWhile isSpaceCh).reverse

/-- Matcher at one position for the packet-loss pattern of both scripts
(performance_test.py line 101, backup line 133): an integral digit run
followed by the literal percent-packet-loss text; the capture group is the
digit run.  The digit run is maximal: a shorter run ends right before a
digit, which cannot match the percent sign, so no backtracking arises. -/
def lossMatchAt (t : List Char) : Option (List Char) :=
  let ds := t.takeWhile isDigitCh
  if ds.isEmpty then none
  else if litAt ("% packet loss".toList) (t.drop ds.length) then some ds else none

/-- Matcher for the slash-separated min/avg/max/deviation quadruple shared by
both latency patterns: four runs of digits-or-dots separated by slashes; the
capture group is the second run (the average).  Each run is maximal because
the separating slash is outside the class; the final run only needs one
character since the pattern ends there. -/
def quadAt (t : List Char) : Option (List Char) :=
  let a := t.takeWhile isDigitDot
  if a.isEmpty then none
  else
    match t.drop a.length with
    | '/' :: t1 =>
      let b := t1.takeWhile isDigitDot
      if b.isEmpty then none
      else
        match t1.drop b.length with
        | '/' :: t2 =>
          let c := t2.takeWhile isDigitDot
          if c.isEmpty then none
          else
            match t2.drop c.length with
            | '/' :: t3 =>
              match t3 with
              | d :: _ => if isDigitDot d then some b else none
              | [] => none
            | _ => none
        | _ => none
    | _ => none

/-- Matcher for the Linux latency pattern of performance_test.py line 105 and
backup line 124: the literal rtt min/avg/max/mdev label, an equals sign, then
the quadruple; the capture is the average component. -/
def rttMatchAt (t : List Char) : Option (List Char) :=
  let lit := ("rtt min/avg/max/mdev = ").toList
  if litAt lit t then quadAt (t.drop lit.length) else none

/-- Matcher for the equals-sign-plus-quadruple tail of the MacOS latency
pattern: the literal space-equals-space then the quadruple. -/
def eqQuadAt (t : List Char) : Option (List Char) :=
  if litAt (" = ".toList) t then quadAt (t.drop 3) else none

/-- Greedy dot-star backtracking: try the longest prefix first (drop `j`
characters, `j` counted down from the segment length), exactly the order in
which Python's greedy dot-star yields positions. -/
def tryDown (u : List Char) : Nat → Option (List Char)
  | 0 => eqQuadAt u
  | j + 1 =>
    match eqQuadAt (u.drop (j + 1)) with
    | some g => some g
    | none => tryDown u j

/-- After the rtt or round-trip label, the MacOS pattern has a greedy dot-star
(which cannot cross a newline) followed by the equals sign and the quadruple:
the rightmost viable position within the current line wins. -/
def macAfterLit (u : List Char) : Option (List Char) :=
  tryDown u (u.takeWhile (fun c => c != '\n')).length

/-- Matcher for the MacOS latency pattern of performance_test.py line 107 and
backup line 126: alternation of the rtt and round-trip labels (mutually
exclusive from their second character on), a greedy dot-star, the equals
sign, and the quadruple. -/
def macMatchAt (t : List Char) : Option (List Char) :=
  if litAt ("rtt".toList) t then macAfterLit (t.drop 3)
  else if litAt ("round-trip".toList) t then macAfterLit (t.drop 10)
  else none

/-- Platform tag selecting the latency pattern, the model of the `os_mode`
string of both scripts. -/
inductive OsMode
  | linux
  | macos
deriving DecidableEq

/-- The latency search selected by the platform tag, as in performance_test.py
lines 104-107 and backup lines 123-126. -/
def latencySearch (mode : OsMode) (t : List Char) : Option (List Char) :=
  match mode with
  | .linux => searchWith rttMatchAt t
  | .macos => searchWith macMatchAt t

/-- The platform-agnostic packet-loss search of performance_test.py line 101
and backup line 133. -/
def lossSearch (t : List Char) : Option (List Char) :=
  searchWith lossMatchAt t

/-- The average-latency field: the captured average suffixed with the
millisecond unit, or the sentinel when the pattern is absent
(performance_test.py lines 97 and 108-109). -/
def avgOf (mode : OsMode) (t : List Char) : List Char :=
  match latencySearch mode t with
  | some v => v ++ ("ms").toList
  | none => ("-").toList

/-- The packet-loss field: the captured digits suffixed with a percent sign,
or the sentinel (performance_test.py lines 98 and 101-103). -/
def lossOf (t : List Char) : List Char :=
  match lossSearch t with
  | some d => d ++ ("%").toList
  | none => ("-").toList

/-- The parse_ping function of performance_test.py lines 96-110: two
independent searches over the same capture, returning the average-latency
and packet-loss fields. -/
def parsePing (mode : OsMode) (t : List Char) : List Char × List Char :=
  (avgOf mode t, lossOf t)

/-- Matcher for the bandwidth pattern of both scripts (performance_test.py
lines 154 and 169, backup lines 152 and 177): a digit run, an optional
fractional part, a space, one word character, and the bits-per-second
literal; the capture group is the whole match.  The digit run is maximal
(a shorter run ends before a digit, which matches neither the dot nor the
space); when the optional fractional branch fails, the empty alternative is
dead because the next character is then a dot, not a space. -/
def bwMatchAt (t : List Char) : Option (List Char) :=
  let ds := t.takeWhile isDigitCh
  if ds.isEmpty then none
  else
    let rest := t.drop ds.length
    match rest with
    | '.' :: r =>
      let fs := r.takeWhile isDigitCh
      if fs.isEmpty then none
      else
        match r.drop fs.length with
        | ' ' :: u :: r2 =>
          if isWordCh u && litAt ("bits/sec".toList) r2 then
            some (ds ++ '.' :: fs ++ ' ' :: u :: ("bits/sec").toList)
          else none
        | _ => none
    | ' ' :: u :: r2 =>
      if isWordCh u && litAt ("bits/sec".toList) r2 then
        some (ds ++ ' ' :: u :: ("bits/sec").toList)
      else none
    | _ => none

/-- Matcher for the jitter pattern of performance_test.py line 157: a decimal
number followed by a space and the millisecond unit; the capture is the
number.  Both digit runs are maximal (followed by a dot and a space
respectively, neither a digit). -/
def jitterMatchAt (t : List Char) : Option (List Char) :=
  let ds := t.takeWhile isDigitCh
  if ds.isEmpty then none
  else
    match t.drop ds.length with
    | '.' :: r =>
      let fs := r.takeWhile isDigitCh
      if fs.isEmpty then none
      else if litAt (" ms".toList) (r.drop fs.length) then some (ds ++ '.' :: fs) else none
    | _ => none

/-- Matcher for the UDP loss pattern of performance_test.py line 160: a
parenthesised percentage whose magnitude is a digit run with an optional
fractional part; the capture is the magnitude.  When the fractional branch
fails the empty alternative is dead (the next character is a dot, not a
percent sign). -/
def pctParenMatchAt (t : List Char) : Option (List Char) :=
  match t with
  | '(' :: r =>
    let ds := r.takeWhile isDigitCh
    if ds.isEmpty then none
    else
      match r.drop ds.length with
      | '.' :: r2 =>
        let fs := r2.takeWhile isDigitCh
        if fs.isEmpty then none
        else if litAt ("%)".toList) (r2.drop fs.length) then some (ds ++ '.' :: fs) else none
      | r2 => if litAt ("%)".toList) r2 then some ds else none
  | _ => none

/-- Matcher for the backup script's jitter pattern (backup line 156): a
decimal number, whitespace, the millisecond unit, whitespace, a digit run and
a slash; the capture is the number.  Every repetition is maximal because the
following literal is outside its class. -/
def bakJitterMatchAt (t : List Char) : Option (List Char) :=
  let ds := t.takeWhile isDigitCh
  if ds.isEmpty then none
  else
    match t.drop ds.length with
    | '.' :: r =>
      let fs := r.takeWhile isDigitCh
      if fs.isEmpty then none
      else
        let r1 := r.drop fs.length
        let w1 := r1.takeWhile isSpaceCh
        if w1.isEmpty then none
        else if litAt ("ms".toList) (r1.drop w1.length) then
          let r2 := (r1.drop w1.length).drop 2
          let w2 := r2.takeWhile isSpaceCh
          if w2.isEmpty then none
          else
            let r3 := r2.drop w2.length
            let ds2 := r3.takeWhile isDigitCh
            if ds2.isEmpty then none
            else
              match r3.drop ds2.length with
              | '/' :: _ => some (ds ++ '.' :: fs)
              | _ => none
        else none
    | _ => none

/-- Matcher for the backup script's UDP loss pattern (backup line 160): a
parenthesised run of digits-or-dots followed by a percent sign; the capture
is the run. -/
def parenClassMatchAt (t : List Char) : Option (List Char) :=
  match t with
  | '(' :: r =>
    let ds := r.takeWhile isDigitDot
    if ds.isEmpty then none
    else if litAt ("%)".toList) (r.drop ds.length) then some ds else none
  | _ => none

/-- Test direction, the model of the `--direction` argument of both scripts. -/
inductive XferDir
  | upload
  | download
deriving DecidableEq

/-- The line-selection predicate of performance_test.py lines 153 and 168 and
backup line 173: the line mentions the receiver role and a bits-per-second
unit (Python substring tests). -/
def isSummaryLine (l : List Char) : Bool :=
  containsSub ("receiver".toList) l && containsSub ("bits/sec".toList) l

/-- The bandwidth field extracted from one line, or the sentinel
(performance_test.py lines 154-156 and 169-171). -/
def bwField (l : List Char) : List Char :=
  match searchWith bwMatchAt l with
  | some b => b
  | none => ("-").toList

/-- The jitter field of performance_test.py lines 157-159. -/
def jitterField (l : List Char) : List Char :=
  match searchWith jitterMatchAt l with
  | some j => j ++ ("ms").toList
  | none => ("-").toList

/-- The UDP loss field of performance_test.py lines 160-162. -/
def udpLossField (l : List Char) : List Char :=
  match searchWith pctParenMatchAt l with
  | some p => p ++ ("%").toList
  | none => ("-").toList

/-- The three UDP sub-fields extracted from the selected line by three
independent searches (performance_test.py lines 154-162). -/
def udpFieldsMain (l : List Char) : List Char × List Char × List Char :=
  (bwField l, jitterField l, udpLossField l)

/-- The UDP parsing loop of performance_test.py lines 151-163: the first line
mentioning both the receiver role and a bandwidth unit is selected (the loop
breaks there) and its three sub-fields are extracted; with no such line every
sub-field is the sentinel.  The loop never consults the test direction. -/
def parseUdpMainLines (lines : List (List Char)) : List Char × List Char × List Char :=
  match lines.find? isSummaryLine with
  | some l => udpFieldsMain l
  | none => (("-").toList, ("-").toList, ("-").toList)

/-- The TCP parsing loop of performance_test.py lines 166-172: the first
receiver summary line is selected (the loop breaks) and its bandwidth is
extracted. -/
def parseTcpMainLines (lines : List (List Char)) : List Char :=
  match lines.find? isSummaryLine with
  | some l => bwField l
  | none => ("-").toList

/-- The direction-aware line-selection predicate of the backup script, lines
146-149: download mode selects sender summary lines, upload mode receiver
summary lines. -/
def bakUdpSelLine (dir : XferDir) (l : List Char) : Bool :=
  match dir with
  | .download => containsSub ("sender".toList) l && containsSub ("bits/sec".toList) l
  | .upload => containsSub ("receiver".toList) l && containsSub ("bits/sec".toList) l

/-- A loop that overwrites its accumulator on every match and has no break
keeps the last matching element; this models the backup script's line loops
(backup lines 144-149 and 171-174). -/
def lastMatch (p : List Char → Bool) : List (List Char) → Option (List Char)
  | [] => none
  | l :: ls =>
    match lastMatch p ls with
    | some r => some r
    | none => if p l then some l else none

/-- The backup script's bandwidth field from one selected line: the line is
first stripped (backup lines 147 and 149), then searched. -/
def bakBwField (l : List Char) : List Char :=
  match searchWith bwMatchAt (stripChars l) with
  | some b => b
  | none => ("-").toList

/-- The backup script's jitter field (backup lines 156-158). -/
def bakJitterField (l : List Char) : List Char :=
  match searchWith bakJitterMatchAt (stripChars l) with
  | some j => j ++ ("ms").toList
  | none => ("-").toList

/-- The backup script's UDP loss field (backup lines 160-162). -/
def bakUdpLossField (l : List Char) : List Char :=
  match searchWith parenClassMatchAt (stripChars l) with
  | some p => p ++ ("%").toList
  | none => ("-").toList

/-- The backup script's UDP extraction, lines 144-162: the last line matching
the direction-selected role wins; with no matching line all three sub-fields
stay at the sentinel. -/
def bakUdpFields (dir : XferDir) (lines : List (List Char)) :
    List Char × List Char × List Char :=
  match lastMatch (bakUdpSelLine dir) lines with
  | some l => (bakBwField l, bakJitterField l, bakUdpLossField l)
  | none => (("-").toList, ("-").toList, ("-").toList)

/-- The backup script's TCP extraction, lines 171-179: the last receiver
summary line wins (the loop lacks a break). -/
def parseTcpBakLines (lines : List (List Char)) : List Char :=
  match lastMatch isSummaryLine lines with
  | some l => bakBwField l
  | none => ("-").toList

/-- The reachability status of performance_test.py line 114: OK exactly when
the literal zero-percent-packet-loss text occurs as a substring of the probe
output. -/
def mainStatus (checkOut : List Char) : List Char :=
  if containsSub ("0% packet loss".toList) checkOut then ("OK").toList else ("FAIL").toList

/-- The reachability flag of the backup script, lines 100-107: the host name
must resolve (`resolveOk`, the model of the gethostbyname try block) and the
probe output must contain the zero-percent or one-percent packet-loss text as
a substring. -/
def bakPingStatus (resolveOk : Bool) (checkOut : List Char) : Bool :=
  resolveOk &&
    (containsSub ("0% packet loss".toList) checkOut ||
     containsSub ("1% packet loss".toList) checkOut)

/-- The key-value fields of the primary script's summary line in source order
(performance_test.py lines 175-180). -/
def mainFields (st sv pt du bl bls ll lls pl pls ub uj ul tb : List Char) :
    List (List Char × List Char) :=
  [(("STATUS").toList, st), (("SERVER").toList, sv ++ ':' :: pt),
   (("DURATION").toList, du ++ ("s").toList),
   (("LATENCY").toList, bl), (("PING_LOSS").toList, bls),
   (("LIVE_LAT").toList, ll), (("LIVE_LOSS").toList, lls),
   (("POST_LAT").toList, pl), (("POST_LOSS").toList, pls),
   (("UDP_BW").toList, ub), (("UDP_JITTER").toList, uj),
   (("UDP_LOSS").toList, ul), (("TCP_BW").toList, tb)]

/-- Serialisation of a field list: each field is rendered as key, equals
sign, value, and preceded by a single separating space, exactly as in the
scripts' f-strings. -/
def joinKV (fs : List (List Char × List Char)) : List Char :=
  fs.foldl (fun acc f => acc ++ ' ' :: (f.1 ++ '=' :: f.2)) []

/-- The summary line of performance_test.py lines 175-180: the timestamp
followed by the fixed sequence of key-value fields. -/
def mainSummaryLine (ts st sv pt du bl bls ll lls pl pls ub uj ul tb : List Char) :
    List Char :=
  ts ++ joinKV (mainFields st sv pt du bl bls ll lls pl pls ub uj ul tb)

/-- The key-value fields of the backup script's summary line in source order
(backup lines 192-195). -/
def bakFields (st sv pt du lat pls ub uj ul tb : List Char) :
    List (List Char × List Char) :=
  [(("STATUS").toList, st), (("SERVER").toList, sv ++ ':' :: pt),
   (("DURATION").toList, du ++ ("s").toList),
   (("LATENCY").toList, lat), (("PING_LOSS").toList, pls),
   (("UDP_BW").toList, ub), (("UDP_JITTER").toList, uj),
   (("UDP_LOSS").toList, ul), (("TCP_BW").toList, tb)]

/-- The summary line of the backup script, lines 192-195. -/
def bakSummaryLine (ts st sv pt du lat pls ub uj ul tb : List Char) : List Char :=
  ts ++ joinKV (bakFields st sv pt du lat pls ub uj ul tb)

/-- The lines appended to the summary log by one run of performance_test.py:
when the reachability status is OK the run continues through every phase and
appends exactly the one assembled line (lines 120-184); otherwise the script
exits at line 118 before any write, appending nothing. -/
def mainRunLines (checkOut basePing livePing postPing : List Char)
    (udpLines tcpLines : List (List Char)) (mode : OsMode)
    (ts sv pt du : List Char) : List (List Char) :=
  if mainStatus checkOut = ("OK").toList then
    [mainSummaryLine ts (mainStatus checkOut) sv pt du
      (avgOf mode basePing) (lossOf basePing)
      (avgOf mode livePing) (lossOf livePing)
      (avgOf mode postPing) (lossOf postPing)
      (parseUdpMainLines udpLines).1
      (parseUdpMainLines udpLines).2.1
      (parseUdpMainLines udpLines).2.2
      (parseTcpMainLines tcpLines)]
  else []

/-- The single line appended by one run of the backup script: all result
variables start at the sentinel (backup lines 110-114) and are filled only
when the reachability flag holds (lines 116-179); the summary line is written
unconditionally (lines 192-199). -/
def bakRunLine (resolveOk : Bool) (checkOut pingOut : List Char)
    (udpLines tcpLines : List (List Char)) (dir : XferDir) (mode : OsMode)
    (ts sv pt du : List Char) : List Char :=
  if bakPingStatus resolveOk checkOut then
    bakSummaryLine ts (("OK").toList) sv pt du
      (avgOf mode pingOut) (lossOf pingOut)
      (bakUdpFields dir udpLines).1
      (bakUdpFields dir udpLines).2.1
      (bakUdpFields dir udpLines).2.2
      (parseTcpBakLines tcpLines)
  else
    bakSummaryLine ts (("FAIL").toList) sv pt du
      (("-").toList) (("-").toList) (("-").toList)
      (("-").toList) (("-").toList) (("-").toList)

/-- The lines appended to the summary log by one run of the backup script:
always exactly one. -/
def bakRunLines (resolveOk : Bool) (checkOut pingOut : List Char)
    (udpLines tcpLines : List (List Char)) (dir : XferDir) (mode : OsMode)
    (ts sv pt du : List Char) : List (List Char) :=
  [bakRunLine resolveOk checkOut pingOut udpLines tcpLines dir mode ts sv pt du]

/-- The observable coordinator actions of performance_test.py in program
order.  `postPing` is the blocking bounded post-test ping of line 145 (its
wait applies to that ping's own subprocess); there is no constructor use of
`waitLivePing` in the trace because the script never calls wait on the live
ping process after terminating it at line 143. -/
inductive CoordEvent
  | pingCheck
  | baselinePing
  | readBaseCapture
  | startLivePing
  | udpTest
  | tcpTest
  | terminateLivePing
  | waitLivePing
  | postPing
  | readLiveCapture
  | readPostCapture
  | appendSummary
deriving DecidableEq

/-- The coordinator trace of performance_test.py for a run that passes the
reachability check, transcribed from lines 113, 121, 122, 126, 133, 140,
143, 145, 147, 148 and 183. -/
def mainEventTrace : List CoordEvent :=
  [.pingCheck, .baselinePing, .readBaseCapture, .startLivePing,
   .udpTest, .tcpTest, .terminateLivePing, .postPing,
   .readLiveCapture, .readPostCapture, .appendSummary]

/-- C2: evaluation of the reachability classification at the failing input.
A probe output reporting 100 percent packet loss contains the literal
zero-percent text as a substring (and the one-percent text), so
performance_test.py line 114 classifies it OK and the backup lines 104-105
set the reachability flag, where the claim requires status FAIL for any loss
strictly above the threshold. -/
theorem C2_substring_status_bug :
    mainStatus (("3 packets transmitted, 0 received, 100% packet loss, time 2036ms").toList)
      = ("OK").toList
    ∧ bakPingStatus true
        (("3 packets transmitted, 0 received, 100% packet loss, time 2036ms").toList) = true
    ∧ ("OK").toList ≠ ("FAIL").toList := by
  exact ⟨rfl, rfl, by decide⟩

/-- C9: evaluation of the coordinator trace.  The trace of
performance_test.py contains no wait on the live ping process anywhere,
although the live capture is read (and extracted) after the terminate call;
the claim requires an explicit join between the stop signal and the read. -/
theorem C9_no_join_before_live_read :
    CoordEvent.waitLivePing ∉ mainEventTrace
    ∧ mainEventTrace.indexOf CoordEvent.terminateLivePing <
        mainEventTrace.indexOf CoordEvent.readLiveCapture := by
  decide

/-- C10: the packet-loss pattern matches only an integral digit run directly
before the percent sign, so a fractional report of 0.5 percent loss yields
only the post-decimal digits: the loss field becomes 5 percent.  The third
conjunct shows the matcher rejecting at the start of the fractional number
itself, which is why the search settles on the digits after the dot. -/
theorem C10_fractional_loss_truncated :
    lossSearch (("2 packets transmitted, 2 received, 0.5% packet loss, time 1001ms").toList)
      = some (("5").toList)
    ∧ (parsePing .linux
        (("2 packets transmitted, 2 received, 0.5% packet loss, time 1001ms").toList)).2
      = ("5%").toList
    ∧ lossMatchAt (("0.5% packet loss").toList) = none := by
  exact ⟨rfl, rfl, rfl⟩

/-- C7: on the selected UDP summary line the bandwidth magnitude may be
integral or fractional, and the three sub-fields are extracted
independently: a line with all three yields all three values, and removing
any single sub-field degrades only that field to its sentinel while the
other two keep their values. -/
theorem C7_udp_subfield_independence :
    parseUdpMainLines
        [("[  5]   0.00-60.00  sec  6.07 GBytes   850 Mbits/sec  0.45 ms  123/10000 (0.1%)  receiver").toList]
      = (("850 Mbits/sec").toList, ("0.45ms").toList, ("0.1%").toList)
    ∧ parseUdpMainLines
        [("[  5]   0.00-60.00  sec  6.07 GBytes   850.5 Mbits/sec  0.45 ms  123/10000 (0.1%)  receiver").toList]
      = (("850.5 Mbits/sec").toList, ("0.45ms").toList, ("0.1%").toList)
    ∧ parseUdpMainLines
        [("[  5]   0.00-60.00  sec  6.07 GBytes   850 Mbits/sec  123/10000 (0.1%)  receiver").toList]
      = (("850 Mbits/sec").toList, ("-").toList, ("0.1%").toList)
    ∧ parseUdpMainLines
        [("[  5]   0.00-60.00  sec  6.07 GBytes   850 Mbits/sec  0.45 ms  123/10000  receiver").toList]
      = (("850 Mbits/sec").toList, ("0.45ms").toList, ("-").toList)
    ∧ parseUdpMainLines
        [("[  5]   0.00-60.00  sec  receiver summary bits/sec unavailable  0.45 ms  (0.1%)").toList]
      = (("-").toList, ("0.45ms").toList, ("0.1%").toList) := by
  exact ⟨rfl, rfl, rfl, rfl, rfl⟩

/-- C1 counterexample: a run of performance_test.py whose reachability check
fails appends no summary line at all (the script exits at line 118 before any
write), refuting the claim that every run appends exactly one line. -/
theorem C1_counterexample :
    mainStatus (("ping: unknown host example.invalid").toList) = ("FAIL").toList
    ∧ mainRunLines (("ping: unknown host example.invalid").toList) [] [] [] [] [] .linux
        (("2025-06-13_00-00-00").toList) (("10.0.0.1").toList) (("5201").toList)
        (("60").toList)
      = [] := by
  exact ⟨rfl, rfl⟩

/-- C3 counterexample: given a capture holding a sender summary line with
bandwidth 100 Mbits/sec and a receiver summary line with 90 Mbits/sec, the
UDP extractor of performance_test.py (which takes no direction parameter at
all: its loop at lines 151-163 tests only for the receiver role) returns the
receiver line's 90 Mbits/sec; the claim requires the sender line's value for
direction download. -/
theorem C3_counterexample :
    (parseUdpMainLines
        [("[  5]   0.00-60.00  sec  7.03 GBytes   100 Mbits/sec  0.050 ms  0/10000 (0%)  sender").toList,
         ("[  5]   0.00-60.00  sec  6.33 GBytes   90 Mbits/sec  0.045 ms  900/10000 (9%)  receiver").toList]).1
      = ("90 Mbits/sec").toList
    ∧ searchWith bwMatchAt
        (("[  5]   0.00-60.00  sec  7.03 GBytes   100 Mbits/sec  0.050 ms  0/10000 (0%)  sender").toList)
      = some (("100 Mbits/sec").toList)
    ∧ containsSub (("sender").toList)
        (("[  5]   0.00-60.00  sec  7.03 GBytes   100 Mbits/sec  0.050 ms  0/10000 (0%)  sender").toList) = true
    ∧ ("90 Mbits/sec").toList ≠ ("100 Mbits/sec").toList := by
  exact ⟨rfl, rfl, rfl, by decide⟩

/-- C4 counterexample: given a TCP capture with two receiver summary lines, a
per-stream line at 100 Mbits/sec followed by a total line at 200 Mbits/sec,
the backup script's extractor (whose loop at lines 171-174 has no break)
returns the second line's bandwidth, refuting first-match-wins for that
variant. -/
theorem C4_counterexample :
    parseTcpBakLines
        [("[  5]   0.00-60.00  sec  0.70 GBytes   100 Mbits/sec                  receiver").toList,
         ("[SUM]   0.00-60.00  sec  1.40 GBytes   200 Mbits/sec                  receiver").toList]
      = ("200 Mbits/sec").toList
    ∧ isSummaryLine
        (("[  5]   0.00-60.00  sec  0.70 GBytes   100 Mbits/sec                  receiver").toList) = true
    ∧ bakBwField
        (("[  5]   0.00-60.00  sec  0.70 GBytes   100 Mbits/sec                  receiver").toList)
      = ("100 Mbits/sec").toList
    ∧ ("200 Mbits/sec").toList ≠ ("100 Mbits/sec").toList := by
  exact ⟨rfl, rfl, rfl, by decide⟩

/-- C5 counterexample: a capture that contains the quoted POSIX quadruple
line, but preceded by another rtt quadruple line, makes the extractor return
the earlier line's average 9.9ms instead of 2.5ms, because re.search takes
the leftmost match; this refutes the claim quantified over every capture
containing the quoted line. -/
theorem C5_counterexample :
    containsSub (("rtt min/avg/max/mdev = 1.0/2.5/4.0/0.3").toList)
        (("rtt min/avg/max/mdev = 1.0/9.9/9.9/9.9\nrtt min/avg/max/mdev = 1.0/2.5/4.0/0.3").toList)
      = true
    ∧ (parsePing .linux
        (("rtt min/avg/max/mdev = 1.0/9.9/9.9/9.9\nrtt min/avg/max/mdev = 1.0/2.5/4.0/0.3").toList)).1
      = ("9.9ms").toList
    ∧ ("9.9ms").toList ≠ ("2.5ms").toList := by
  exact ⟨rfl, rfl, by decide⟩

/-- C8 counterexample: the UDP bandwidth value extracted from the spec's own
example line is the token 850 Mbits/sec, which contains an embedded space,
and that value appears verbatim as the UDP_BW field of an assembled record;
this refutes the claim that no field value ever contains a space. -/
theorem C8_counterexample :
    ((("UDP_BW").toList,
      (parseUdpMainLines
        [("[  5]   0.00-60.00  sec  6.07 GBytes   850 Mbits/sec  0.45 ms  123/10000 (0.1%)  receiver").toList]).1) ∈
      mainFields (("OK").toList) (("10.0.0.1").toList) (("5201").toList) (("60").toList)
        (("-").toList) (("-").toList) (("-").toList) (("-").toList) (("-").toList) (("-").toList)
        ((parseUdpMainLines
          [("[  5]   0.00-60.00  sec  6.07 GBytes   850 Mbits/sec  0.45 ms  123/10000 (0.1%)  receiver").toList]).1)
        (("0.45ms").toList) (("0.1%").toList) (("-").toList))
    ∧ ((parseUdpMainLines
        [("[  5]   0.00-60.00  sec  6.07 GBytes   850 Mbits/sec  0.45 ms  123/10000 (0.1%)  receiver").toList]).1).count ' '
      = 1 := by
  refine ⟨?_, by rfl⟩
  have : (parseUdpMainLines
        [("[  5]   0.00-60.00  sec  6.07 GBytes   850 Mbits/sec  0.45 ms  123/10000 (0.1%)  receiver").toList]).1
      = ("850 Mbits/sec").toList := rfl
  rw [this]
  decide

/-- A leftmost search skips any prefix on which the matcher never fires. -/
theorem searchWith_append (m : List Char → Option (List Char)) (p q : List Char)
    (h : ∀ i, i < p.length → m ((p ++ q).drop i) = none) :
    searchWith m (p ++ q) = searchWith m q := by
  induction p with
  | nil => rfl
  | cons c cs ih =>
    have h0 : m (c :: (cs ++ q)) = none := by
      have := h 0 (by simp)
      simpa using this
    rw [List.cons_append, searchWith, h0]
    exact ih (fun i hi => by
      have := h (i + 1) (by simpa using Nat.succ_lt_succ hi)
      simpa using this)

/-- Any group returned by a leftmost search was produced by the matcher at
some position, so per-matcher output invariants lift to the search. -/
theorem searchWith_some (m : List Char → Option (List Char))
    (P : List Char → Prop) (hm : ∀ t g, m t = some g → P g) :
    ∀ t g, searchWith m t = some g → P g := by
  intro t
  induction t with
  | nil => intro g hg; exact hm [] g hg
  | cons c cs ih =>
    intro g hg
    rw [searchWith] at hg
    cases hmc : m (c :: cs) with
    | some g2 =>
      rw [hmc] at hg
      cases hg
      exact hm _ _ hmc
    | none =>
      rw [hmc] at hg
      exact ih g hg

/-- The first-satisfying-element lemma behind a loop with a break: searching
a list whose prefix has no matching element finds the first match. -/
theorem findFirstHere (p : List Char → Bool) (pre post : List (List Char)) (l : List Char)
    (h1 : ∀ x ∈ pre, p x = false) (h2 : p l = true) :
    (pre ++ l :: post).find? p = some l := by
  induction pre with
  | nil => simp [List.find?_cons, h2]
  | cons x xs ih =>
    have hx : p x = false := h1 x (List.mem_cons_self _ _)
    rw [List.cons_append, List.find?_cons, hx]
    exact ih (fun y hy => h1 y (List.mem_cons_of_mem _ hy))

/-- A loop without a break over a list with no matching element keeps its
initial empty accumulator. -/
theorem lastMatch_eq_none (p : List Char → Bool) (ls : List (List Char))
    (h : ∀ l ∈ ls, p l = false) :
    lastMatch p ls = none := by
  induction ls with
  | nil => rfl
  | cons x xs ih =>
    have hx : p x = false := h x (List.mem_cons_self _ _)
    have hxs : lastMatch p xs = none := ih (fun l hl => h l (List.mem_cons_of_mem _ hl))
    simp [lastMatch, hxs, hx]

/-- A loop without a break ignores a prefix with no matching element. -/
theorem lastMatch_append (p : List Char → Bool) (pre rest : List (List Char))
    (h : ∀ l ∈ pre, p l = false) :
    lastMatch p (pre ++ rest) = lastMatch p rest := by
  induction pre with
  | nil => rfl
  | cons x xs ih =>
    have hx : p x = false := h x (List.mem_cons_self _ _)
    have hxs := ih (fun l hl => h l (List.mem_cons_of_mem _ hl))
    cases hr : lastMatch p rest with
    | some r => simp [lastMatch, hxs, hr]
    | none => simp [lastMatch, hxs, hr, hx]

/-- A loop without a break keeps a matching element when nothing after it
matches. -/
theorem lastMatch_cons_here (p : List Char → Bool) (s : List Char) (rest : List (List Char))
    (hs : p s = true) (hrest : lastMatch p rest = none) :
    lastMatch p (s :: rest) = some s := by
  simp [lastMatch, hrest, hs]

/-- C1 (amended): only the backup script upholds the unconditional summary
contract.  When its reachability flag is false it still appends exactly one
line, with status FAIL and every measurement field at the sentinel; the
primary script appends exactly one line when its status check passes and
nothing at all when it fails, because it exits at line 118 before any
write. -/
theorem C1_unconditional_line_only_in_backup :
    (∀ ro co pingOut udpL tcpL dir mode ts sv pt du,
        bakPingStatus ro co = false →
        bakRunLines ro co pingOut udpL tcpL dir mode ts sv pt du =
          [bakSummaryLine ts (("FAIL").toList) sv pt du (("-").toList) (("-").toList)
            (("-").toList) (("-").toList) (("-").toList) (("-").toList)])
    ∧ (∀ co bP lP pP udpL tcpL mode ts sv pt du,
        mainStatus co ≠ ("OK").toList →
        mainRunLines co bP lP pP udpL tcpL mode ts sv pt du = [])
    ∧ (∀ co bP lP pP udpL tcpL mode ts sv pt du,
        mainStatus co = ("OK").toList →
        (mainRunLines co bP lP pP udpL tcpL mode ts sv pt du).length = 1) := by
  refine ⟨?_, ?_, ?_⟩
  · intro ro co pingOut udpL tcpL dir mode ts sv pt du h
    simp [bakRunLines, bakRunLine, h]
  · intro co bP lP pP udpL tcpL mode ts sv pt du h
    unfold mainRunLines
    rw [if_neg h]
  · intro co bP lP pP udpL tcpL mode ts sv pt du h
    unfold mainRunLines
    rw [if_pos h]
    rfl

/-- Witness for C1: concrete instantiations of all three parts of the
amended statement. -/
theorem C1_unconditional_line_only_in_backup_witness :
    bakRunLines false (("x").toList) [] [] [] .upload .linux (("TS").toList)
        (("10.0.0.1").toList) (("5201").toList) (("60").toList)
      = [bakSummaryLine (("TS").toList) (("FAIL").toList) (("10.0.0.1").toList)
          (("5201").toList) (("60").toList) (("-").toList) (("-").toList)
          (("-").toList) (("-").toList) (("-").toList) (("-").toList)]
    ∧ mainRunLines (("request timeout").toList) [] [] [] [] [] .linux (("TS").toList)
        (("10.0.0.1").toList) (("5201").toList) (("60").toList) = []
    ∧ (mainRunLines (("3 received, 0% packet loss").toList) [] [] [] [] [] .linux
        (("TS").toList) (("10.0.0.1").toList) (("5201").toList) (("60").toList)).length = 1 := by
  refine ⟨?_, ?_, ?_⟩
  · exact C1_unconditional_line_only_in_backup.1 false (("x").toList) [] [] [] .upload .linux
      (("TS").toList) (("10.0.0.1").toList) (("5201").toList) (("60").toList) (by decide)
  · exact C1_unconditional_line_only_in_backup.2.1 (("request timeout").toList) [] [] [] [] []
      .linux (("TS").toList) (("10.0.0.1").toList) (("5201").toList) (("60").toList) (by decide)
  · exact C1_unconditional_line_only_in_backup.2.2 (("3 received, 0% packet loss").toList)
      [] [] [] [] [] .linux (("TS").toList) (("10.0.0.1").toList) (("5201").toList)
      (("60").toList) (by decide)

/-- C4 (amended): the primary script's TCP extractor honours only the first
receiver summary line: whatever follows it, including further matching
lines, never overwrites the accepted match.  In the backup variant the loop
lacks a break and the last matching line wins instead. -/
theorem C4_main_first_match_wins (pre post : List (List Char)) (l : List Char)
    (h1 : ∀ x ∈ pre, isSummaryLine x = false) (h2 : isSummaryLine l = true) :
    parseTcpMainLines (pre ++ l :: post) = bwField l := by
  have hfind := findFirstHere isSummaryLine pre post l h1 h2
  simp [parseTcpMainLines, hfind]

/-- Witness for C4: a sub-stream receiver line followed by a total receiver
line; the extractor returns the first line's 100 Mbits/sec even though the
200 Mbits/sec total also matches. -/
theorem C4_main_first_match_wins_witness :
    parseTcpMainLines
        [("[  5]   0.00-60.00  sec  0.70 GBytes   100 Mbits/sec                  receiver").toList,
         ("[SUM]   0.00-60.00  sec  1.40 GBytes   200 Mbits/sec                  receiver").toList]
      = bwField (("[  5]   0.00-60.00  sec  0.70 GBytes   100 Mbits/sec                  receiver").toList)
    ∧ bwField (("[  5]   0.00-60.00  sec  0.70 GBytes   100 Mbits/sec                  receiver").toList)
      = ("100 Mbits/sec").toList := by
  refine ⟨?_, by rfl⟩
  exact C4_main_first_match_wins []
    [("[SUM]   0.00-60.00  sec  1.40 GBytes   200 Mbits/sec                  receiver").toList]
    (("[  5]   0.00-60.00  sec  0.70 GBytes   100 Mbits/sec                  receiver").toList)
    (fun x hx => absurd hx (List.not_mem_nil x)) (by rfl)

/-- C3 (amended): direction-aware line selection holds only in the backup
script.  For a capture with one sender summary line and one receiver summary
line (and no other line matched by either role predicate), the backup UDP
extractor returns the sender line's bandwidth for direction download and the
receiver line's bandwidth for direction upload.  The primary script's UDP
extractor ignores direction and always takes the first receiver summary
line. -/
theorem C3_bak_direction_selects_role (pre mid post : List (List Char)) (sL rL : List Char)
    (h1 : bakUdpSelLine .download sL = true)
    (h3 : bakUdpSelLine .upload rL = true)
    (h4 : bakUdpSelLine .download rL = false)
    (h5 : ∀ l ∈ pre, bakUdpSelLine .download l = false ∧ bakUdpSelLine .upload l = false)
    (h6 : ∀ l ∈ mid, bakUdpSelLine .download l = false ∧ bakUdpSelLine .upload l = false)
    (h7 : ∀ l ∈ post, bakUdpSelLine .download l = false ∧ bakUdpSelLine .upload l = false) :
    (bakUdpFields .download (pre ++ (sL :: (mid ++ (rL :: post))))).1 = bakBwField sL
    ∧ (bakUdpFields .upload (pre ++ (sL :: (mid ++ (rL :: post))))).1 = bakBwField rL := by
  constructor
  · have hsel : lastMatch (bakUdpSelLine .download) (pre ++ (sL :: (mid ++ (rL :: post))))
        = some sL := by
      rw [lastMatch_append _ _ _ (fun l hl => (h5 l hl).1)]
      apply lastMatch_cons_here _ _ _ h1
      rw [lastMatch_append _ _ _ (fun l hl => (h6 l hl).1)]
      apply lastMatch_eq_none
      intro l hl
      rcases List.mem_cons.mp hl with h | h
      · rw [h]; exact h4
      · exact (h7 l h).1
    simp [bakUdpFields, hsel]
  · have hmid : lastMatch (bakUdpSelLine .upload) (mid ++ rL :: post) = some rL := by
      rw [lastMatch_append _ _ _ (fun l hl => (h6 l hl).2)]
      exact lastMatch_cons_here _ _ _ h3
        (lastMatch_eq_none _ _ (fun l hl => (h7 l hl).2))
    have hsel : lastMatch (bakUdpSelLine .upload) (pre ++ (sL :: (mid ++ (rL :: post))))
        = some rL := by
      rw [lastMatch_append _ _ _ (fun l hl => (h5 l hl).2)]
      simp [lastMatch, hmid]
    simp [bakUdpFields, hsel]

/-- Witness for C3: the two-line capture of the counterexample; the backup
extractor returns 100 Mbits/sec (the sender line) for download and
90 Mbits/sec (the receiver line) for upload. -/
theorem C3_bak_direction_selects_role_witness :
    (bakUdpFields .download
        [("[  5]   0.00-60.00  sec  7.03 GBytes   100 Mbits/sec  0.050 ms  0/10000 (0%)  sender").toList,
         ("[  5]   0.00-60.00  sec  6.33 GBytes   90 Mbits/sec  0.045 ms  900/10000 (9%)  receiver").toList]).1
      = bakBwField (("[  5]   0.00-60.00  sec  7.03 GBytes   100 Mbits/sec  0.050 ms  0/10000 (0%)  sender").toList)
    ∧ (bakUdpFields .upload
        [("[  5]   0.00-60.00  sec  7.03 GBytes   100 Mbits/sec  0.050 ms  0/10000 (0%)  sender").toList,
         ("[  5]   0.00-60.00  sec  6.33 GBytes   90 Mbits/sec  0.045 ms  900/10000 (9%)  receiver").toList]).1
      = bakBwField (("[  5]   0.00-60.00  sec  6.33 GBytes   90 Mbits/sec  0.045 ms  900/10000 (9%)  receiver").toList)
    ∧ bakBwField (("[  5]   0.00-60.00  sec  7.03 GBytes   100 Mbits/sec  0.050 ms  0/10000 (0%)  sender").toList)
      = ("100 Mbits/sec").toList
    ∧ bakBwField (("[  5]   0.00-60.00  sec  6.33 GBytes   90 Mbits/sec  0.045 ms  900/10000 (9%)  receiver").toList)
      = ("90 Mbits/sec").toList := by
  have h := C3_bak_direction_selects_role [] [] []
    (("[  5]   0.00-60.00  sec  7.03 GBytes   100 Mbits/sec  0.050 ms  0/10000 (0%)  sender").toList)
    (("[  5]   0.00-60.00  sec  6.33 GBytes   90 Mbits/sec  0.045 ms  900/10000 (9%)  receiver").toList)
    (by rfl) (by rfl) (by rfl)
    (fun l hl => absurd hl (List.not_mem_nil l))
    (fun l hl => absurd hl (List.not_mem_nil l))
    (fun l hl => absurd hl (List.not_mem_nil l))
  exact ⟨h.1, h.2, by rfl, by rfl⟩

/-- The Linux matcher fires on the quoted POSIX quadruple line whatever
follows it, capturing the average 2.5. -/
theorem rtt_line_match (s : List Char) :
    searchWith rttMatchAt (("rtt min/avg/max/mdev = 1.0/2.5/4.0/0.3").toList ++ s)
      = some (("2.5").toList) := rfl

/-- The MacOS matcher fires on the quoted BSD quadruple line at the end of
the capture, capturing the average 2.5. -/
theorem mac_line_match_nil :
    searchWith macMatchAt
        (("round-trip min/avg/max/stddev = 1.0/2.5/4.0/0.3").toList ++ ([] : List Char))
      = some (("2.5").toList) := rfl

/-- The MacOS matcher fires on the quoted BSD quadruple line when a newline
follows it (the greedy dot-star cannot cross the newline), capturing 2.5. -/
theorem mac_line_match_nl (r2 : List Char) :
    searchWith macMatchAt
        (("round-trip min/avg/max/stddev = 1.0/2.5/4.0/0.3").toList ++ ('\n' :: r2))
      = some (("2.5").toList) := rfl

/-- C5 (amended): for every capture containing the quoted POSIX quadruple
line, provided no earlier position of the capture matches the Linux latency
pattern, the extractor with the Linux tag returns 2.5ms; and for every
capture containing the quoted BSD quadruple line, provided no earlier
position matches the MacOS pattern and the line is terminated by a newline
or the end of the capture, the extractor with the MacOS tag returns 2.5ms.
(The provisos are forced by the counterexample: re.search takes the
leftmost match, and the BSD pattern's greedy dot-star takes the rightmost
equals-quadruple on the same line.) -/
theorem C5_quoted_line_yields_avg (p s q r : List Char)
    (h1 : ∀ i, i < p.length →
        rttMatchAt ((p ++ (("rtt min/avg/max/mdev = 1.0/2.5/4.0/0.3").toList ++ s)).drop i)
          = none)
    (h2 : ∀ i, i < q.length →
        macMatchAt
            ((q ++ (("round-trip min/avg/max/stddev = 1.0/2.5/4.0/0.3").toList ++ r)).drop i)
          = none)
    (h3 : r = [] ∨ ∃ r2, r = '\n' :: r2) :
    (parsePing .linux (p ++ (("rtt min/avg/max/mdev = 1.0/2.5/4.0/0.3").toList ++ s))).1
      = ("2.5ms").toList
    ∧ (parsePing .macos
        (q ++ (("round-trip min/avg/max/stddev = 1.0/2.5/4.0/0.3").toList ++ r))).1
      = ("2.5ms").toList := by
  constructor
  · have hs : latencySearch .linux
        (p ++ (("rtt min/avg/max/mdev = 1.0/2.5/4.0/0.3").toList ++ s))
        = some (("2.5").toList) := by
      show searchWith rttMatchAt _ = _
      rw [searchWith_append rttMatchAt p _ h1]
      exact rtt_line_match s
    show avgOf .linux _ = _
    simp only [avgOf, hs]
    rfl
  · have hs : latencySearch .macos
        (q ++ (("round-trip min/avg/max/stddev = 1.0/2.5/4.0/0.3").toList ++ r))
        = some (("2.5").toList) := by
      show searchWith macMatchAt _ = _
      rw [searchWith_append macMatchAt q _ h2]
      rcases h3 with h3 | ⟨r2, h3⟩
      · rw [h3]
        exact mac_line_match_nil
      · rw [h3]
        exact mac_line_match_nl r2
    show avgOf .macos _ = _
    simp only [avgOf, hs]
    rfl

/-- Witness for C5: both quoted lines as whole captures (empty prefix and
suffix) yield 2.5ms. -/
theorem C5_quoted_line_yields_avg_witness :
    (parsePing .linux
        (([] : List Char) ++ (("rtt min/avg/max/mdev = 1.0/2.5/4.0/0.3").toList ++ []))).1
      = ("2.5ms").toList
    ∧ (parsePing .macos
        (([] : List Char)
          ++ (("round-trip min/avg/max/stddev = 1.0/2.5/4.0/0.3").toList ++ []))).1
      = ("2.5ms").toList :=
  C5_quoted_line_yields_avg [] [] [] []
    (fun i hi => absurd hi (Nat.not_lt_zero i))
    (fun i hi => absurd hi (Nat.not_lt_zero i))
    (Or.inl rfl)

/-- C6: when the latency quadruple is absent the latency field is the
sentinel, and the two extractions are independent: the loss field is
determined solely by the loss search (it is extracted whether or not the
latency search succeeds) and the latency field solely by the latency search,
so neither match failure affects the other; none of this can raise, the
extractor being a total function. -/
theorem C6_sentinel_and_independence (mode : OsMode) (t : List Char) :
    (latencySearch mode t = none → (parsePing mode t).1 = ("-").toList)
    ∧ (lossSearch t = none → (parsePing mode t).2 = ("-").toList)
    ∧ (∀ d, lossSearch t = some d → (parsePing mode t).2 = d ++ ("%").toList)
    ∧ (∀ v, latencySearch mode t = some v → (parsePing mode t).1 = v ++ ("ms").toList) := by
  refine ⟨?_, ?_, ?_, ?_⟩
  · intro h
    show avgOf mode t = _
    simp only [avgOf, h]
  · intro h
    show lossOf t = _
    simp only [lossOf, h]
  · intro d h
    show lossOf t = _
    simp only [lossOf, h]
  · intro v h
    show avgOf mode t = _
    simp only [avgOf, h]

/-- Witness for C6: a capture with a loss report but no quadruple yields the
sentinel for latency while loss extraction still succeeds. -/
theorem C6_sentinel_and_independence_witness :
    (parsePing .linux
        (("3 packets transmitted, 0 received, 100% packet loss, time 2036ms").toList)).1
      = ("-").toList
    ∧ (parsePing .linux
        (("3 packets transmitted, 0 received, 100% packet loss, time 2036ms").toList)).2
      = ("100%").toList := by
  constructor
  · exact (C6_sentinel_and_independence .linux
      (("3 packets transmitted, 0 received, 100% packet loss, time 2036ms").toList)).1
      (by rfl)
  · exact (C6_sentinel_and_independence .linux
      (("3 packets transmitted, 0 received, 100% packet loss, time 2036ms").toList)).2.2.1
      (("100").toList) (by rfl)

/-- A run taken while a predicate holds contains no space when the predicate
rejects the space character. -/
theorem count_space_takeWhile (pset : Char → Bool) (hp : pset ' ' = false) :
    ∀ l : List Char, ((l.takeWhile pset).count ' ') = 0 := by
  intro l
  induction l with
  | nil => rfl
  | cons c cs ih =>
    by_cases hc : pset c = true
    · have hcs : ¬ c = ' ' := by
        intro he
        rw [he, hp] at hc
        exact Bool.false_ne_true hc
      rw [List.takeWhile_cons_of_pos hc, List.count_cons]
      simp [ih, hcs]
    · rw [List.takeWhile_cons_of_neg (by simpa using hc)]
      rfl

/-- Groups captured by the packet-loss matcher are digit runs, hence
space-free. -/
theorem lossMatchAt_no_space (t g : List Char) (h : lossMatchAt t = some g) :
    g.count ' ' = 0 := by
  simp only [lossMatchAt] at h
  split at h
  · exact Option.noConfusion h
  · split at h
    · cases h
      exact count_space_takeWhile isDigitCh (by decide) t
    · exact Option.noConfusion h

/-- Groups captured by the quadruple matcher are digit-or-dot runs, hence
space-free. -/
theorem quadAt_no_space (t g : List Char) (h : quadAt t = some g) :
    g.count ' ' = 0 := by
  simp only [quadAt] at h
  repeat' split at h
  all_goals first
    | exact Option.noConfusion h
    | (cases h
       exact count_space_takeWhile isDigitDot (by decide) _)

/-- Groups captured after the equals sign are space-free. -/
theorem eqQuadAt_no_space (t g : List Char) (h : eqQuadAt t = some g) :
    g.count ' ' = 0 := by
  simp only [eqQuadAt] at h
  split at h
  · exact quadAt_no_space _ _ h
  · exact Option.noConfusion h

/-- Groups captured through the greedy dot-star descent are space-free. -/
theorem tryDown_no_space (u : List Char) :
    ∀ (n : Nat) (g : List Char), tryDown u n = some g → g.count ' ' = 0 := by
  intro n
  induction n with
  | zero => intro g h; exact eqQuadAt_no_space _ _ h
  | succ j ih =>
    intro g h
    simp only [tryDown] at h
    split at h
    · rename_i g2 heq
      cases h
      exact eqQuadAt_no_space _ _ heq
    · exact ih g h

/-- Groups captured by the MacOS tail matcher are space-free. -/
theorem macAfterLit_no_space (u g : List Char) (h : macAfterLit u = some g) :
    g.count ' ' = 0 := by
  exact tryDown_no_space u _ g h

/-- Groups captured by the MacOS latency matcher are space-free. -/
theorem macMatchAt_no_space (t g : List Char) (h : macMatchAt t = some g) :
    g.count ' ' = 0 := by
  simp only [macMatchAt] at h
  split at h
  · exact macAfterLit_no_space _ _ h
  · split at h
    · exact macAfterLit_no_space _ _ h
    · exact Option.noConfusion h

/-- Groups captured by the Linux latency matcher are space-free. -/
theorem rttMatchAt_no_space (t g : List Char) (h : rttMatchAt t = some g) :
    g.count ' ' = 0 := by
  simp only [rttMatchAt] at h
  split at h
  · exact quadAt_no_space _ _ h
  · exact Option.noConfusion h

/-- Any group returned by the latency search is space-free. -/
theorem latencySearch_no_space (mode : OsMode) (t v : List Char)
    (h : latencySearch mode t = some v) : v.count ' ' = 0 := by
  cases mode with
  | linux => exact searchWith_some rttMatchAt (fun g => g.count ' ' = 0) rttMatchAt_no_space t v h
  | macos => exact searchWith_some macMatchAt (fun g => g.count ' ' = 0) macMatchAt_no_space t v h

/-- Groups captured by the jitter matcher are decimal numerals, hence
space-free. -/
theorem jitterMatchAt_no_space (t g : List Char) (h : jitterMatchAt t = some g) :
    g.count ' ' = 0 := by
  simp only [jitterMatchAt] at h
  repeat' split at h
  all_goals first
    | exact Option.noConfusion h
    | (cases h
       simp [List.count_append, List.count_cons,
         count_space_takeWhile isDigitCh (by decide)])

/-- Groups captured by the parenthesised-percentage matcher are decimal
numerals, hence space-free. -/
theorem pctParenMatchAt_no_space (t g : List Char) (h : pctParenMatchAt t = some g) :
    g.count ' ' = 0 := by
  simp only [pctParenMatchAt] at h
  repeat' split at h
  all_goals first
    | exact Option.noConfusion h
    | (cases h
       simp [List.count_append, List.count_cons,
         count_space_takeWhile isDigitCh (by decide)])

/-- The average-latency field value never contains a space: it is the
sentinel or a captured numeral suffixed with the millisecond unit. -/
theorem avgOf_no_space (mode : OsMode) (t : List Char) : (avgOf mode t).count ' ' = 0 := by
  unfold avgOf
  cases hl : latencySearch mode t with
  | none => rfl
  | some v =>
    have hv := latencySearch_no_space mode t v hl
    have hms : (("ms").toList).count ' ' = 0 := rfl
    simp [List.count_append, hv, hms]

/-- The packet-loss field value never contains a space. -/
theorem lossOf_no_space (t : List Char) : (lossOf t).count ' ' = 0 := by
  unfold lossOf
  cases hl : lossSearch t with
  | none => rfl
  | some d =>
    have hd := searchWith_some lossMatchAt (fun g => g.count ' ' = 0)
      lossMatchAt_no_space t d hl
    have hpc : (("%").toList).count ' ' = 0 := rfl
    simp [List.count_append, hd, hpc]

/-- The jitter field value never contains a space. -/
theorem jitterField_no_space (l : List Char) : (jitterField l).count ' ' = 0 := by
  unfold jitterField
  cases hj : searchWith jitterMatchAt l with
  | none => rfl
  | some j =>
    have hv := searchWith_some jitterMatchAt (fun g => g.count ' ' = 0)
      jitterMatchAt_no_space l j hj
    have hms : (("ms").toList).count ' ' = 0 := rfl
    simp [List.count_append, hv, hms]

/-- The UDP loss field value never contains a space. -/
theorem udpLossField_no_space (l : List Char) : (udpLossField l).count ' ' = 0 := by
  unfold udpLossField
  cases hp : searchWith pctParenMatchAt l with
  | none => rfl
  | some v =>
    have hv := searchWith_some pctParenMatchAt (fun g => g.count ' ' = 0)
      pctParenMatchAt_no_space l v hp
    have hpc : (("%").toList).count ' ' = 0 := rfl
    simp [List.count_append, hv, hpc]

/-- A word-class character is never the space character. -/
theorem wordCh_ne_space (u : Char) (hw : isWordCh u = true) : (u == ' ') = false := by
  cases hbe : u == ' ' with
  | false => rfl
  | true =>
    have hu : u = ' ' := eq_of_beq hbe
    rw [hu] at hw
    exact absurd hw (by decide)

/-- Groups captured by the bandwidth matcher contain exactly one space, the
one separating the magnitude from the unit token. -/
theorem bwMatchAt_one_space (t g : List Char) (h : bwMatchAt t = some g) :
    g.count ' ' = 1 := by
  have hbits : (("bits/sec").toList).count ' ' = 0 := rfl
  simp only [bwMatchAt] at h
  repeat' split at h
  all_goals try exact Option.noConfusion h
  all_goals
    rename_i hcond
    rw [Bool.and_eq_true] at hcond
    cases h
    simp [List.count_append, List.count_cons, hbits, wordCh_ne_space _ hcond.1,
      count_space_takeWhile isDigitCh (by decide)]

/-- The bandwidth field is the sentinel or contains exactly one space. -/
theorem bwField_shape (l : List Char) :
    bwField l = ("-").toList ∨ (bwField l).count ' ' = 1 := by
  unfold bwField
  cases hb : searchWith bwMatchAt l with
  | none => exact Or.inl rfl
  | some b =>
    exact Or.inr
      (searchWith_some bwMatchAt (fun g => g.count ' ' = 1) bwMatchAt_one_space l b hb)

/-- C8 (amended): the summary line keeps the fixed key order with
single-space separators, and every extracted field value other than the two
bandwidth fields is space-free (the sentinel or a unit-suffixed numeral);
the bandwidth fields are the sentinel or contain exactly one space, the one
separating the magnitude from the unit token (so those two values do embed
a space, as the counterexample shows). -/
theorem C8_value_space_discipline (mode : OsMode) (t : List Char)
    (udpLines tcpLines : List (List Char))
    (st sv pt du bl bls ll lls pl pls ub uj ul tb : List Char) :
    ((parsePing mode t).1.count ' ' = 0)
    ∧ ((parsePing mode t).2.count ' ' = 0)
    ∧ (((parseUdpMainLines udpLines).2.1).count ' ' = 0)
    ∧ (((parseUdpMainLines udpLines).2.2).count ' ' = 0)
    ∧ ((parseUdpMainLines udpLines).1 = ("-").toList
        ∨ ((parseUdpMainLines udpLines).1).count ' ' = 1)
    ∧ (parseTcpMainLines tcpLines = ("-").toList
        ∨ (parseTcpMainLines tcpLines).count ' ' = 1)
    ∧ ((mainFields st sv pt du bl bls ll lls pl pls ub uj ul tb).map Prod.fst
        = [("STATUS").toList, ("SERVER").toList, ("DURATION").toList, ("LATENCY").toList,
           ("PING_LOSS").toList, ("LIVE_LAT").toList, ("LIVE_LOSS").toList,
           ("POST_LAT").toList, ("POST_LOSS").toList, ("UDP_BW").toList,
           ("UDP_JITTER").toList, ("UDP_LOSS").toList, ("TCP_BW").toList]) := by
  refine ⟨avgOf_no_space mode t, lossOf_no_space t, ?_, ?_, ?_, ?_, ?_⟩
  · unfold parseUdpMainLines
    cases hf : udpLines.find? isSummaryLine with
    | none => rfl
    | some l => exact jitterField_no_space l
  · unfold parseUdpMainLines
    cases hf : udpLines.find? isSummaryLine with
    | none => rfl
    | some l => exact udpLossField_no_space l
  · unfold parseUdpMainLines
    cases hf : udpLines.find? isSummaryLine with
    | none => exact Or.inl rfl
    | some l => exact bwField_shape l
  · unfold parseTcpMainLines
    cases hf : tcpLines.find? isSummaryLine with
    | none => exact Or.inl rfl
    | some l => exact bwField_shape l
  · rfl
